import Mathlib

/-!
# niri-action: verification of the core logic of `src/main.rs`

A shallow embedding of the program in `src/main.rs` (a CLI that lists niri
windows / workspaces / outputs, lets the user pick a line via the external
`fuzzel` picker, and issues a niri IPC action for the pick).

Modelling conventions:

* The niri IPC socket is modelled by the outcome of each exchange: a value of
  type `Exch := Except String (Except String Response)` — the outer `Except`
  is the transport-level `Result` (propagated with `?` in Rust), the inner one
  is the daemon-level `Result<Response, String>`.
* Orchestrator operations take an environment `Env := Request → Exch` giving
  the exchange outcome of each request, and the raw text that `fuzzel`
  printed on stdout (the picked line including its trailing newline, or the
  empty string when the user cancelled).  They return the list of actions
  issued, in order, together with the final result.
* Rust `u64` values are modelled as `Nat`; `u64::from_str` checks the
  `2 ^ 64` bound explicitly.  Rust panics (`unwrap` / `expect`) are modelled
  as `Error.Panic` outcomes; `ParseIntError` propagated with `?` is
  `Error.ParseIntError`.
-/

namespace NiriAction

/-! ## Data model (the niri-ipc types as used by `main.rs`) -/

/-- A niri window: numeric id and optional title. -/
structure Window where
  id : Nat
  title : Option String
deriving DecidableEq, Repr

/-- A niri workspace: id, display index, optional name, focus flag. -/
structure Workspace where
  id : Nat
  idx : Nat
  name : Option String
  is_focused : Bool
deriving DecidableEq, Repr

/-- A niri output: connector name, make, model, optional serial. -/
structure Output where
  name : String
  make : String
  model : String
  serial : Option String
deriving DecidableEq, Repr

/-- Reference to a workspace, by numeric id or by index. -/
inductive WorkspaceReferenceArg where
  | Id (id : Nat)
  | Index (i : Nat)
deriving DecidableEq, Repr

/-- The mutating intents issued by `main.rs`. -/
inductive Action where
  | FocusWindow (id : Nat)
  | MoveWindowToWorkspace (window_id : Option Nat)
      (reference : WorkspaceReferenceArg) (focus : Bool)
  | FocusWorkspace (reference : WorkspaceReferenceArg)
  | MoveWorkspaceToMonitor (output : String)
      (reference : Option WorkspaceReferenceArg)
  | SetWorkspaceName (name : String)
      (workspace : Option WorkspaceReferenceArg)
deriving DecidableEq, Repr

/-- The requests sent by `main.rs`. -/
inductive Request where
  | Outputs
  | Windows
  | Workspaces
  | Action (action : NiriAction.Action)
deriving DecidableEq, Repr

/-- The responses received from the daemon, as matched by `main.rs`. -/
inductive Response where
  | Handled
  | Outputs (outputs : List Output)
  | Windows (windows : List Window)
  | Workspaces (workspaces : List Workspace)
deriving DecidableEq, Repr

/-- The error outcomes of an operation (`failure::Error` in the source,
plus panics). -/
inductive Error where
  | UnhandledError (err : String)
  | TransportError (err : String)
  | ParseIntError (s : String)
  | Panic (msg : String)
deriving DecidableEq, Repr

instance {ε α : Type} [DecidableEq ε] [DecidableEq α] :
    DecidableEq (Except ε α) := fun x y =>
  match x, y with
  | .error a, .error b =>
    if h : a = b then .isTrue (by rw [h]) else .isFalse (by simp [h])
  | .ok a, .ok b =>
    if h : a = b then .isTrue (by rw [h]) else .isFalse (by simp [h])
  | .error _, .ok _ => .isFalse (by simp)
  | .ok _, .error _ => .isFalse (by simp)

/-- Daemon-level reply: `Result<Response, String>`. -/
abbrev Reply := Except String Response

/-- Exchange outcome: transport result wrapping the daemon reply. -/
abbrev Exch := Except String Reply

/-- The IPC environment: the exchange outcome of each request. -/
abbrev Env := Request → Exch

/-! ## Decimal rendering and parsing of `u64` values -/

/-- Base-10 digits of `n`, least significant first, computed with explicit
fuel so that the kernel can evaluate it (`natToDigitsRev n n = Nat.digits 10 n`
whenever `n ≤ fuel`, proved below). -/
def natToDigitsRev (fuel n : Nat) : List Nat :=
  match fuel with
  | 0 => []
  | fuel + 1 => if n = 0 then [] else n % 10 :: natToDigitsRev fuel (n / 10)

/-- Decimal digit characters of `n`, most significant first
(Rust `format!("{}", n)` for an unsigned integer). -/
def natReprChars (n : Nat) : List Char :=
  if n = 0 then ['0'] else ((natToDigitsRev n n).map Nat.digitChar).reverse

/-- Decimal rendering of `n` (Rust `Display` for `u64`). -/
def natRepr (n : Nat) : String :=
  String.mk (natReprChars n)

/-- Numeric value of an ASCII digit character. -/
def charDigit (c : Char) : Nat := c.toNat - 48

/-- Drop one leading `'+'` sign if present (part of Rust integer parsing). -/
def stripPlus (cs : List Char) : List Char :=
  match cs with
  | [] => []
  | c :: rest => if c = '+' then rest else c :: rest

/-- Rust `u64::from_str`: optional `'+'` sign, then one or more ASCII
digits, value below `2 ^ 64`; anything else fails. -/
def parseU64 (s : String) : Option Nat :=
  let cs := stripPlus s.data
  if cs.isEmpty then none
  else if cs.all Char.isDigit then
    let v := cs.foldl (fun acc c => acc * 10 + charDigit c) 0
    if v < 2 ^ 64 then some v else none
  else none

/-! ## Debug rendering (the `{:?}` formatting used in `run_action`) -/

/-- Debug rendering of an optional value. -/
def debugOpt (f : α → String) : Option α → String
  | none => "None"
  | some a => "Some(" ++ f a ++ ")"

/-- Debug rendering of a string value. -/
def debugString (s : String) : String := "\"" ++ s ++ "\""

/-- Debug rendering of a list. -/
def debugList (f : α → String) (l : List α) : String :=
  "[" ++ String.intercalate ", " (l.map f) ++ "]"

/-- Debug rendering of a window. -/
def Window.debugStr (w : Window) : String :=
  "Window \x7b id: " ++ natRepr w.id ++ ", title: " ++
    debugOpt debugString w.title ++ " \x7d"

/-- Debug rendering of a workspace. -/
def Workspace.debugStr (w : Workspace) : String :=
  "Workspace \x7b id: " ++ natRepr w.id ++ ", idx: " ++ natRepr w.idx ++
    ", name: " ++ debugOpt debugString w.name ++ ", is_focused: " ++
    (if w.is_focused then "true" else "false") ++ " \x7d"

/-- Debug rendering of an output. -/
def Output.debugStr (o : Output) : String :=
  "Output \x7b name: " ++ debugString o.name ++ ", make: " ++
    debugString o.make ++ ", model: " ++ debugString o.model ++
    ", serial: " ++ debugOpt debugString o.serial ++ " \x7d"

/-- Debug rendering of a response (models Rust `format!("{:?}", x)`). -/
def Response.debugStr : Response → String
  | .Handled => "Handled"
  | .Outputs s => "Outputs(" ++ debugList Output.debugStr s ++ ")"
  | .Windows s => "Windows(" ++ debugList Window.debugStr s ++ ")"
  | .Workspaces s => "Workspaces(" ++ debugList Workspace.debugStr s ++ ")"

/-! ## The Query/Action dispatcher (`impl QueryRun for Socket`) -/

/-- `Socket::query` from `main.rs`: `Handled` becomes `None`, any other
success payload becomes `Some`, a daemon error becomes `UnhandledError`. -/
def query (exch : Exch) : Except Error (Option Response) :=
  match exch with
  | .error e => .error (.TransportError e)
  | .ok (.ok .Handled) => .ok none
  | .ok (.ok x) => .ok (some x)
  | .ok (.error err) => .error (.UnhandledError err)

/-- `Socket::run_action` from `main.rs`: only `Handled` is success; any
other success payload and any daemon error become `UnhandledError`. -/
def run_action (exch : Exch) : Except Error Unit :=
  match exch with
  | .error e => .error (.TransportError e)
  | .ok (.ok .Handled) => .ok ()
  | .ok (.ok x) => .error (.UnhandledError ("Got result for " ++ x.debugStr))
  | .ok (.error err) => .error (.UnhandledError err)

/-! ## Entity listing formatters (`get_windows`, `get_workspaces`,
`get_outputs` and the two current-workspace lookups) -/

/-- The display line for one window:
`format!("{}: {}", x.id, x.title.clone().unwrap_or("Unknown"))`. -/
def fmtWindow (w : Window) : String :=
  natRepr w.id ++ ": " ++ w.title.getD "Unknown"

/-- The display line for one workspace:
`format!("{}: {} ({})", x.id, x.name.clone().unwrap_or("<unnamed>"), x.idx)`. -/
def fmtWorkspace (w : Workspace) : String :=
  natRepr w.id ++ ": " ++ w.name.getD "<unnamed>" ++ " (" ++ natRepr w.idx ++ ")"

/-- The display line for one output:
`format!("{}: {} {} {}", x.name, x.make, x.model, x.serial.clone().unwrap_or("<unknown>"))`. -/
def fmtOutput (o : Output) : String :=
  o.name ++ ": " ++ o.make ++ " " ++ o.model ++ " " ++ o.serial.getD "<unknown>"

/-- `si.sort_by(|a, b| a.idx.cmp(&b.idx))`: stable sort ascending by index.
Rust's `sort_by` is a stable sort; `List.insertionSort` is stable with the
same tie-breaking (an earlier element stays before later elements of equal
index), so the two agree on every input. -/
def sortWorkspaces (s : List Workspace) : List Workspace :=
  List.insertionSort (fun a b => a.idx ≤ b.idx) s

/-- `get_windows` from `main.rs`, as a function of the exchange outcome of
`Request::Windows`. -/
def get_windows (exch : Exch) : Except Error (List String) :=
  match query exch with
  | .error e => .error e
  | .ok (some (.Windows s)) => .ok (s.map fmtWindow)
  | .ok none => .ok []
  | .ok _ => .ok []

/-- `get_workspaces` from `main.rs`: sort by index, then format. -/
def get_workspaces (exch : Exch) : Except Error (List String) :=
  match query exch with
  | .error e => .error e
  | .ok (some (.Workspaces s)) => .ok ((sortWorkspaces s).map fmtWorkspace)
  | .ok none => .ok []
  | .ok _ => .ok []

/-- `get_outputs` from `main.rs` (the values of the output map, in
iteration order). -/
def get_outputs (exch : Exch) : Except Error (List String) :=
  match query exch with
  | .error e => .error e
  | .ok (some (.Outputs s)) => .ok (s.map fmtOutput)
  | .ok none => .ok []
  | .ok _ => .ok []

/-- `get_current_workspace` from `main.rs`:
`s.into_iter().find(|x| x.is_focused).unwrap().id`; the `unwrap` panics when
no workspace is focused. -/
def get_current_workspace (exch : Exch) : Except Error Nat :=
  match query exch with
  | .error e => .error e
  | .ok (some (.Workspaces s)) =>
    match s.find? (fun x => x.is_focused) with
    | some w => .ok w.id
    | none => .error (.Panic "called Option::unwrap on a None value")
  | .ok none => .ok 0
  | .ok _ => .ok 0

/-- `get_current_workspace_name` from `main.rs`:
`find(|x| x.is_focused).unwrap().name.unwrap_or("")`. -/
def get_current_workspace_name (exch : Exch) : Except Error String :=
  match query exch with
  | .error e => .error e
  | .ok (some (.Workspaces s)) =>
    match s.find? (fun x => x.is_focused) with
    | some w => .ok (w.name.getD "")
    | none => .error (.Panic "called Option::unwrap on a None value")
  | .ok none => .ok ""
  | .ok _ => .ok ""

/-! ## Selection resolution -/

/-- `s.split(":").next()`: the text before the first `':'` (the whole
string when there is none).  The `.next()` of a split iterator always
yields a first piece, so the `expect` in the source cannot fire. -/
def splitColonFirst (s : String) : String :=
  String.mk (s.data.takeWhile (fun c => c ≠ ':'))

/-- `fuzzel_get_selection_id` from `main.rs`, as a function of the raw
fuzzel stdout. -/
def fuzzel_get_selection_id (fuzzelOut : String) : String :=
  splitColonFirst fuzzelOut

/-- The result of ID-or-new-entry resolution (`IDorEntry` in `main.rs`). -/
structure IDorEntry where
  id : Option Nat
  entry : String
deriving DecidableEq, Repr

/-- `s.strip_suffix('\n')`: drop one trailing newline, `none` when the
string does not end in one. -/
def stripNewlineSuffix (s : String) : Option String :=
  match s.data.getLast? with
  | some c => if c = '\n' then some (String.mk s.data.dropLast) else none
  | none => none

/-- `fuzzel_get_selection_id_or_entry` from `main.rs`, as a function of the
raw fuzzel stdout.  The source `expect`s both the newline strip and the id
parse; those panics are modelled as `Error.Panic`. -/
def fuzzel_get_selection_id_or_entry (fuzzelOut : String) :
    Except Error IDorEntry :=
  match stripNewlineSuffix fuzzelOut with
  | none => .error (.Panic "Failed to strip newline")
  | some stripped =>
    if fuzzelOut.data.contains ':' then
      match parseU64 (splitColonFirst fuzzelOut) with
      | some v => .ok ⟨some v, stripped⟩
      | none => .error (.Panic "Failed to convert ID to u64")
    else .ok ⟨none, stripped⟩

/-! ## The five socket-driven operations (`impl ApplicationState`)

Each returns the list of actions issued, in order, paired with the final
result.  `fuzzelOut` is the raw stdout of the fuzzel child process. -/

/-- `focus_container_by_id` from `main.rs`. -/
def focus_container_by_id (env : Env) (fuzzelOut : String) :
    List Action × Except Error Unit :=
  match get_windows (env .Windows) with
  | .error e => ([], .error e)
  | .ok _ =>
    match parseU64 (fuzzel_get_selection_id fuzzelOut) with
    | none => ([], .error (.ParseIntError (fuzzel_get_selection_id fuzzelOut)))
    | some id =>
      let a := Action.FocusWindow id
      ([a], run_action (env (.Action a)))

/-- `steal_container_by_id` from `main.rs`. -/
def steal_container_by_id (env : Env) (fuzzelOut : String) :
    List Action × Except Error Unit :=
  match get_windows (env .Windows) with
  | .error e => ([], .error e)
  | .ok _ =>
    match get_current_workspace (env .Workspaces) with
    | .error e => ([], .error e)
    | .ok ws =>
      match parseU64 (fuzzel_get_selection_id fuzzelOut) with
      | none => ([], .error (.ParseIntError (fuzzel_get_selection_id fuzzelOut)))
      | some id =>
        let a := Action.MoveWindowToWorkspace (some id)
          (.Id ws) false
        ([a], run_action (env (.Action a)))

/-- `focus_workspace_by_name` from `main.rs`.  On a pick with an id, one
`FocusWorkspace`; on free text, focus the last listed workspace and then
rename it; the `SetWorkspaceName` is only issued when the first action
succeeded. -/
def focus_workspace_by_name (env : Env) (fuzzelOut : String) :
    List Action × Except Error Unit :=
  match get_workspaces (env .Workspaces) with
  | .error e => ([], .error e)
  | .ok work_names =>
    match fuzzel_get_selection_id_or_entry fuzzelOut with
    | .error e => ([], .error e)
    | .ok ws =>
      match ws.id with
      | some s =>
        let a := Action.FocusWorkspace (.Id s)
        ([a], run_action (env (.Action a)))
      | none =>
        match work_names.getLast? with
        | none => ([], .error (.Panic "No workspaces"))
        | some lastLine =>
          match parseU64 (splitColonFirst lastLine) with
          | none => ([], .error (.ParseIntError (splitColonFirst lastLine)))
          | some id =>
            let a1 := Action.FocusWorkspace (.Id id)
            match run_action (env (.Action a1)) with
            | .error e => ([a1], .error e)
            | .ok _ =>
              let a2 := Action.SetWorkspaceName ws.entry (some (.Id id))
              ([a1, a2], run_action (env (.Action a2)))

/-- `move_to_workspace_by_name` from `main.rs`. -/
def move_to_workspace_by_name (env : Env) (fuzzelOut : String) :
    List Action × Except Error Unit :=
  match get_workspaces (env .Workspaces) with
  | .error e => ([], .error e)
  | .ok _ =>
    match parseU64 (fuzzel_get_selection_id fuzzelOut) with
    | none => ([], .error (.ParseIntError (fuzzel_get_selection_id fuzzelOut)))
    | some space =>
      let a := Action.MoveWindowToWorkspace none (.Id space) false
      ([a], run_action (env (.Action a)))

/-- `move_workspace_to_output` from `main.rs`: the picked prefix is used
as the output name directly, with no parse step. -/
def move_workspace_to_output (env : Env) (fuzzelOut : String) :
    List Action × Except Error Unit :=
  match get_outputs (env .Outputs) with
  | .error e => ([], .error e)
  | .ok _ =>
    let output := fuzzel_get_selection_id fuzzelOut
    let a := Action.MoveWorkspaceToMonitor output none
    ([a], run_action (env (.Action a)))

/-! ## Concrete environments used by witnesses and counterexamples -/

/-- A small concrete environment: one output, one window, one focused
workspace with id 7, every action acknowledged. -/
def sampleEnv : Env := fun r =>
  match r with
  | .Outputs => .ok (.ok (.Outputs [⟨"DP-1", "mk", "md", none⟩]))
  | .Windows => .ok (.ok (.Windows [⟨42, some "Term"⟩]))
  | .Workspaces => .ok (.ok (.Workspaces [⟨7, 0, some "mail", true⟩]))
  | .Action _ => .ok (.ok .Handled)

/-- A concrete environment reporting zero workspaces. -/
def emptyWsEnv : Env := fun r =>
  match r with
  | .Workspaces => .ok (.ok (.Workspaces []))
  | _ => .ok (.ok .Handled)

/-- A concrete environment with two workspaces (indices 0 and 1), every
action acknowledged. -/
def twoWsEnv : Env := fun r =>
  match r with
  | .Workspaces => .ok (.ok (.Workspaces
      [⟨3, 0, some "mail", true⟩, ⟨9, 1, some "web", false⟩]))
  | _ => .ok (.ok .Handled)

/-! ## Helper lemmas -/

theorem mk_data (s : String) : String.mk s.data = s := by
  cases s
  rfl

theorem data_append (a b : String) : (a ++ b).data = a.data ++ b.data := rfl

theorem charDigit_digitChar {d : Nat} (h : d < 10) :
    charDigit (Nat.digitChar d) = d := by
  interval_cases d <;> rfl

theorem digitChar_isDigit {d : Nat} (h : d < 10) :
    (Nat.digitChar d).isDigit = true := by
  interval_cases d <;> rfl

theorem natToDigitsRev_eq (fuel n : Nat) (h : n ≤ fuel) :
    natToDigitsRev fuel n = Nat.digits 10 n := by
  induction fuel generalizing n with
  | zero =>
    interval_cases n
    simp [natToDigitsRev]
  | succ fuel ih =>
    by_cases h0 : n = 0
    · subst h0
      simp [natToDigitsRev]
    · have hdiv : n / 10 ≤ fuel := by
        have := Nat.div_lt_self (Nat.pos_of_ne_zero h0) (by norm_num : 1 < 10)
        omega
      show (if n = 0 then [] else n % 10 :: natToDigitsRev fuel (n / 10)) = _
      rw [if_neg h0, ih _ hdiv,
        ← Nat.digits_def' (by norm_num : (1 : Nat) < 10) (Nat.pos_of_ne_zero h0)]

theorem natReprChars_isDigit (n : Nat) :
    ∀ c ∈ natReprChars n, c.isDigit = true := by
  intro c hc
  unfold natReprChars at hc
  split at hc
  · simp only [List.mem_singleton] at hc
    subst hc
    rfl
  · rw [natToDigitsRev_eq _ _ (Nat.le_refl _)] at hc
    simp only [List.mem_reverse, List.mem_map] at hc
    obtain ⟨d, hd, rfl⟩ := hc
    exact digitChar_isDigit (Nat.digits_lt_base (by norm_num) hd)

theorem natReprChars_ne_nil (n : Nat) : natReprChars n ≠ [] := by
  unfold natReprChars
  split
  · simp
  · rw [natToDigitsRev_eq _ _ (Nat.le_refl _)]
    simp only [ne_eq, List.reverse_eq_nil_iff, List.map_eq_nil_iff]
    exact Nat.digits_ne_nil_iff_ne_zero.mpr (by assumption)

theorem foldl_natReprChars (n : Nat) :
    (natReprChars n).foldl (fun acc c => acc * 10 + charDigit c) 0 = n := by
  unfold natReprChars
  split
  · subst_vars
    rfl
  · rw [natToDigitsRev_eq _ _ (Nat.le_refl _), List.foldl_reverse, List.foldr_map]
    have key : ∀ L : List Nat, (∀ d ∈ L, d < 10) →
        L.foldr (fun d acc => acc * 10 + charDigit (Nat.digitChar d)) 0 =
          Nat.ofDigits 10 L := by
      intro L hL
      induction L with
      | nil => simp [Nat.ofDigits]
      | cons d L ih =>
        rw [List.foldr_cons, ih (fun x hx => hL x (List.mem_cons_of_mem d hx)),
          Nat.ofDigits_cons, charDigit_digitChar (hL d (List.mem_cons_self d L))]
        ring
    rw [key _ (fun d hd => Nat.digits_lt_base (by norm_num) hd),
      Nat.ofDigits_digits]

theorem parse_natRepr {n : Nat} (h : n < 2 ^ 64) :
    parseU64 (natRepr n) = some n := by
  have hstrip : stripPlus (natReprChars n) = natReprChars n := by
    cases hcs : natReprChars n with
    | nil => rfl
    | cons c cs =>
      have hdig : c.isDigit = true :=
        natReprChars_isDigit n c (by rw [hcs]; exact List.mem_cons_self c cs)
      simp only [stripPlus]
      rw [if_neg]
      intro hplus
      rw [hplus] at hdig
      exact absurd hdig (by decide)
  have hmk : (natRepr n).data = natReprChars n := rfl
  unfold parseU64
  rw [hmk, hstrip]
  rw [if_neg (by simp [List.isEmpty_iff, natReprChars_ne_nil])]
  rw [if_pos (by rw [List.all_eq_true]; exact natReprChars_isDigit n)]
  simp only [foldl_natReprChars]
  rw [if_pos h]

theorem takeWhile_append_of_all {α : Type} (p : α → Bool) (l1 l2 : List α)
    (h : ∀ c ∈ l1, p c = true) :
    (l1 ++ l2).takeWhile p = l1 ++ l2.takeWhile p := by
  induction l1 with
  | nil => simp
  | cons c cs ih =>
    rw [List.cons_append, List.takeWhile_cons,
      if_pos (h c (List.mem_cons_self c cs)), List.cons_append,
      ih (fun x hx => h x (List.mem_cons_of_mem c hx))]

theorem takeWhile_until_colon (l1 l2 : List Char) (h : ':' ∉ l1) :
    (l1 ++ ':' :: l2).takeWhile (fun c => c ≠ ':') = l1 := by
  rw [takeWhile_append_of_all _ l1 (':' :: l2)
    (fun c hc => by
      simp only [decide_eq_true_eq]
      intro hcolon
      exact h (hcolon ▸ hc))]
  simp [List.takeWhile_cons]

theorem natRepr_no_colon (n : Nat) : ':' ∉ (natRepr n).data := by
  intro hmem
  have := natReprChars_isDigit n ':' hmem
  exact absurd this (by decide)

theorem isDigit_ne_colon {c : Char} (h : c.isDigit = true) : c ≠ ':' := by
  intro hc
  rw [hc] at h
  exact absurd h (by decide)

theorem sortWorkspaces_pairwise (s : List Workspace) :
    (sortWorkspaces s).Pairwise (fun a b => a.idx ≤ b.idx) :=
  @List.sorted_insertionSort Workspace (fun a b => a.idx ≤ b.idx) _
    ⟨fun a b => Nat.le_total a.idx b.idx⟩ ⟨fun _ _ _ => Nat.le_trans⟩ s

theorem sortWorkspaces_perm (s : List Workspace) :
    (sortWorkspaces s).Perm s :=
  List.perm_insertionSort _ s

theorem pairwise_getLast_max (l : List Workspace)
    (hp : l.Pairwise (fun a b => a.idx ≤ b.idx))
    (lastW : Workspace) (hl : l.getLast? = some lastW) :
    ∀ x ∈ l, x.idx ≤ lastW.idx := by
  induction l with
  | nil => simp at hl
  | cons a t ih =>
    intro x hx
    cases t with
    | nil =>
      simp only [List.getLast?_singleton, Option.some.injEq] at hl
      simp only [List.mem_singleton] at hx
      subst hl
      subst hx
      exact Nat.le_refl _
    | cons b t2 =>
      rw [List.getLast?_cons_cons] at hl
      rcases List.mem_cons.mp hx with rfl | hx2
      · exact (List.pairwise_cons.mp hp).1 lastW (List.mem_of_mem_getLast? hl)
      · exact ih (List.pairwise_cons.mp hp).2 hl x hx2

/-- Splitting at the first colon, stated on the character data. -/
theorem splitColonFirst_of_data (s : String) (pre tail2 : List Char)
    (hdata : s.data = pre ++ ':' :: tail2) (h : ':' ∉ pre) :
    splitColonFirst s = String.mk pre := by
  unfold splitColonFirst
  rw [hdata, takeWhile_until_colon _ _ h]

theorem data_colon_space : (": " : String).data = [':', ' '] := rfl

theorem data_newline : ("\n" : String).data = ['\n'] := rfl

theorem data_space_paren : (" (" : String).data = [' ', '('] := rfl

theorem data_paren : (")" : String).data = [')'] := rfl

theorem splitColonFirst_fmtWindow (w : Window) :
    splitColonFirst (fmtWindow w) = natRepr w.id := by
  rw [splitColonFirst_of_data (fmtWindow w) (natRepr w.id).data
    (' ' :: (w.title.getD "Unknown").data) ?hd (natRepr_no_colon w.id), mk_data]
  case hd =>
    simp [fmtWindow, data_append, data_colon_space]

theorem splitColonFirst_fmtWorkspace (w : Workspace) :
    splitColonFirst (fmtWorkspace w) = natRepr w.id := by
  rw [splitColonFirst_of_data (fmtWorkspace w) (natRepr w.id).data
    (' ' :: ((w.name.getD "<unnamed>").data ++
      (' ' :: '(' :: ((natRepr w.idx).data ++ [')']))))
    ?hd (natRepr_no_colon w.id), mk_data]
  case hd =>
    simp [fmtWorkspace, data_append, data_colon_space, data_space_paren,
      data_paren, List.append_assoc]

theorem splitColonFirst_fmtWindow_nl (w : Window) :
    splitColonFirst (fmtWindow w ++ "\n") = natRepr w.id := by
  rw [splitColonFirst_of_data (fmtWindow w ++ "\n") (natRepr w.id).data
    (' ' :: ((w.title.getD "Unknown").data ++ ['\n']))
    ?hd (natRepr_no_colon w.id), mk_data]
  case hd =>
    simp [fmtWindow, data_append, data_colon_space, data_newline,
      List.append_assoc]

theorem splitColonFirst_fmtWorkspace_nl (w : Workspace) :
    splitColonFirst (fmtWorkspace w ++ "\n") = natRepr w.id := by
  rw [splitColonFirst_of_data (fmtWorkspace w ++ "\n") (natRepr w.id).data
    (' ' :: ((w.name.getD "<unnamed>").data ++
      (' ' :: '(' :: ((natRepr w.idx).data ++ [')', '\n']))))
    ?hd (natRepr_no_colon w.id), mk_data]
  case hd =>
    simp [fmtWorkspace, data_append, data_colon_space, data_space_paren,
      data_paren, data_newline, List.append_assoc]

theorem splitColonFirst_fmtOutput (o : Output) (h : ':' ∉ o.name.data) :
    splitColonFirst (fmtOutput o) = o.name := by
  rw [splitColonFirst_of_data (fmtOutput o) o.name.data
    (' ' :: (o.make.data ++ (' ' :: (o.model.data ++
      (' ' :: (o.serial.getD "<unknown>").data)))))
    ?hd h, mk_data]
  case hd =>
    simp [fmtOutput, data_append, data_colon_space, List.append_assoc,
      show (" " : String).data = [' '] from rfl]

theorem stripNewlineSuffix_append_nl (s : String) :
    stripNewlineSuffix (s ++ "\n") = some s := by
  unfold stripNewlineSuffix
  rw [show (s ++ "\n").data = s.data ++ ['\n'] from rfl, List.getLast?_concat,
    List.dropLast_concat]
  simp [mk_data]

theorem contains_eq_false_of_not_mem {l : List Char} (h : ':' ∉ l) :
    l.contains ':' = false := by
  simpa using h

theorem contains_eq_true_of_mem {l : List Char} (h : ':' ∈ l) :
    l.contains ':' = true := by
  simpa using h

/-- A formatted workspace line (with its trailing newline) resolves in
ID-or-new-entry mode to the workspace's numeric id. -/
theorem resolve_fmtWorkspace (w : Workspace) (hid : w.id < 2 ^ 64) :
    fuzzel_get_selection_id_or_entry (fmtWorkspace w ++ "\n") =
      .ok ⟨some w.id, fmtWorkspace w⟩ := by
  have hc : (fmtWorkspace w ++ "\n").data.contains ':' = true := by
    apply contains_eq_true_of_mem
    have h1 : (fmtWorkspace w ++ "\n").data = (natRepr w.id).data ++
        ':' :: (' ' :: ((w.name.getD "<unnamed>").data ++
          (' ' :: '(' :: ((natRepr w.idx).data ++ [')', '\n'])))) := by
      simp [fmtWorkspace, data_append, data_colon_space, data_space_paren,
        data_paren, data_newline, List.append_assoc]
    rw [h1]
    simp
  unfold fuzzel_get_selection_id_or_entry
  rw [stripNewlineSuffix_append_nl]
  dsimp only
  rw [if_pos hc, splitColonFirst_fmtWorkspace_nl, parse_natRepr hid]

/-- A free-typed line (no colon, with its trailing newline) resolves in
ID-or-new-entry mode to the typed text. -/
theorem resolve_freetext (text : String) (h : ':' ∉ text.data) :
    fuzzel_get_selection_id_or_entry (text ++ "\n") = .ok ⟨none, text⟩ := by
  have hc : (text ++ "\n").data.contains ':' = false := by
    apply contains_eq_false_of_not_mem
    intro hmem
    rw [show (text ++ "\n").data = text.data ++ ['\n'] from rfl] at hmem
    rcases List.mem_append.mp hmem with h1 | h1
    · exact h h1
    · simp at h1
  unfold fuzzel_get_selection_id_or_entry
  rw [stripNewlineSuffix_append_nl]
  dsimp only
  rw [if_neg (by rw [hc]; exact Bool.false_ne_true)]

/-- Empty fuzzel output (cancellation) makes ID-or-new-entry resolution
panic on the newline strip. -/
theorem resolve_empty :
    fuzzel_get_selection_id_or_entry "" =
      .error (.Panic "Failed to strip newline") := rfl

/-- Evaluation of `get_windows` on a windows reply. -/
theorem get_windows_eq (s : List Window) :
    get_windows (.ok (.ok (.Windows s))) = .ok (s.map fmtWindow) := rfl

/-- Evaluation of `get_workspaces` on a workspaces reply. -/
theorem get_workspaces_eq (s : List Workspace) :
    get_workspaces (.ok (.ok (.Workspaces s))) =
      .ok ((sortWorkspaces s).map fmtWorkspace) := rfl

/-- Evaluation of `get_outputs` on an outputs reply. -/
theorem get_outputs_eq (s : List Output) :
    get_outputs (.ok (.ok (.Outputs s))) = .ok (s.map fmtOutput) := rfl

/-- Evaluation of `get_current_workspace` when a focused workspace is
found. -/
theorem get_current_workspace_focused (ss : List Workspace) (w : Workspace)
    (hf : ss.find? (fun x => x.is_focused) = some w) :
    get_current_workspace (.ok (.ok (.Workspaces ss))) = .ok w.id := by
  unfold get_current_workspace query
  dsimp only
  rw [hf]

/-! ## Claim theorems -/

/-- C1: `run_action` succeeds exactly when the exchange's success payload is
the bare acknowledgement `Handled`; any other successful payload fails with
`UnhandledError` describing the unexpected payload, and a daemon-reported
error text fails with `UnhandledError` carrying that message. -/
theorem C1_run_action_contract :
    (∀ exch : Exch, run_action exch = .ok () ↔ exch = .ok (.ok .Handled)) ∧
    (∀ x : Response, x ≠ .Handled →
      run_action (.ok (.ok x)) =
        .error (.UnhandledError ("Got result for " ++ x.debugStr))) ∧
    (∀ err : String,
      run_action (.ok (.error err)) = .error (.UnhandledError err)) := by
  refine ⟨?_, ?_, fun err => rfl⟩
  · intro exch
    constructor
    · intro h
      cases exch with
      | error e => simp [run_action] at h
      | ok r =>
        cases r with
        | error err => simp [run_action] at h
        | ok x =>
          cases x with
          | Handled => rfl
          | Outputs s => simp [run_action] at h
          | Windows s => simp [run_action] at h
          | Workspaces s => simp [run_action] at h
    · intro h
      subst h
      rfl
  · intro x hx
    cases x with
    | Handled => exact absurd rfl hx
    | Outputs s => rfl
    | Windows s => rfl
    | Workspaces s => rfl

theorem C1_run_action_contract_witness :
    run_action (.ok (.ok (.Windows []))) =
      .error (.UnhandledError
        ("Got result for " ++ (Response.Windows []).debugStr)) :=
  C1_run_action_contract.2.1 (.Windows []) (by decide)

/-- C2: `query` yields `None` on the bare acknowledgement `Handled`,
`Some(payload)` on any other success payload, and fails with
`UnhandledError` on a daemon-reported error text. -/
theorem C2_query_contract :
    (query (.ok (.ok .Handled)) = .ok none) ∧
    (∀ x : Response, x ≠ .Handled → query (.ok (.ok x)) = .ok (some x)) ∧
    (∀ err : String,
      query (.ok (.error err)) = .error (.UnhandledError err)) := by
  refine ⟨rfl, ?_, fun err => rfl⟩
  intro x hx
  cases x with
  | Handled => exact absurd rfl hx
  | Outputs s => rfl
  | Windows s => rfl
  | Workspaces s => rfl

theorem C2_query_contract_witness :
    query (.ok (.ok (.Windows []))) = .ok (some (.Windows [])) :=
  C2_query_contract.2.1 (.Windows []) (by decide)

/-- C9: the window listing maps each window to
`"<id>: <title or Unknown>"` ('Unknown' exactly when the title is absent)
and preserves the order in which the windows were returned. -/
theorem C9_window_listing :
    (∀ s : List Window,
      get_windows (.ok (.ok (.Windows s))) = .ok (s.map fmtWindow)) ∧
    (∀ (i : Nat) (t : String),
      fmtWindow ⟨i, some t⟩ = natRepr i ++ ": " ++ t) ∧
    (∀ i : Nat, fmtWindow ⟨i, none⟩ = natRepr i ++ ": " ++ "Unknown") ∧
    (∀ (s : List Window) (i : Nat),
      (s.map fmtWindow)[i]? = s[i]?.map fmtWindow) :=
  ⟨fun _ => rfl, fun _ _ => rfl, fun _ => rfl,
    fun s i => List.getElem?_map fmtWindow s i⟩

/-- C10: every query helper degrades silently on an unexpected success
outcome (`Handled`, i.e. `query` yields `None`, or a response variant of
the wrong kind): the listing helpers return `Ok` with an empty list,
`get_current_workspace` returns `Ok 0`, and `get_current_workspace_name`
returns `Ok ""`. -/
theorem C10_query_helpers_silent_defaults :
    (∀ r : Response, (∀ s, r ≠ .Windows s) →
      get_windows (.ok (.ok r)) = .ok []) ∧
    (∀ r : Response, (∀ s, r ≠ .Workspaces s) →
      get_workspaces (.ok (.ok r)) = .ok []) ∧
    (∀ r : Response, (∀ s, r ≠ .Outputs s) →
      get_outputs (.ok (.ok r)) = .ok []) ∧
    (∀ r : Response, (∀ s, r ≠ .Workspaces s) →
      get_current_workspace (.ok (.ok r)) = .ok 0) ∧
    (∀ r : Response, (∀ s, r ≠ .Workspaces s) →
      get_current_workspace_name (.ok (.ok r)) = .ok "") := by
  refine ⟨?_, ?_, ?_, ?_, ?_⟩ <;> intro r h <;> cases r with
  | Handled => rfl
  | Outputs s => first | exact absurd rfl (h s) | rfl
  | Windows s => first | exact absurd rfl (h s) | rfl
  | Workspaces s => first | exact absurd rfl (h s) | rfl

/-- C5: the workspace listing formatter sorts ascending by index before
formatting (so indices `[2,0,1]` come out ordered `[0,1,2]`), each line of
shape `"<id>: <name or '<unnamed>'> (<index>)"`. -/
theorem C5_workspace_listing_sorted :
    (∀ s : List Workspace,
      get_workspaces (.ok (.ok (.Workspaces s))) =
        .ok ((sortWorkspaces s).map fmtWorkspace)) ∧
    (∀ s : List Workspace,
      (sortWorkspaces s).Pairwise (fun a b => a.idx ≤ b.idx)) ∧
    (∀ s : List Workspace, (sortWorkspaces s).Perm s) ∧
    (∀ w : Workspace, fmtWorkspace w =
      natRepr w.id ++ ": " ++ w.name.getD "<unnamed>" ++ " (" ++
        natRepr w.idx ++ ")") ∧
    (get_workspaces (.ok (.ok (.Workspaces
        [⟨10, 2, none, false⟩, ⟨11, 0, none, false⟩, ⟨12, 1, none, false⟩]))) =
      .ok ["11: <unnamed> (0)", "12: <unnamed> (1)", "10: <unnamed> (2)"]) :=
  ⟨fun _ => rfl, sortWorkspaces_pairwise, sortWorkspaces_perm,
    fun _ => rfl, by decide⟩

/-- C6 counterexample: an output whose name contains a colon does not
round-trip: resolving its formatted line recovers only the part of the name
before the first colon. -/
theorem C6_counterexample_output_name_with_colon :
    ¬ (fuzzel_get_selection_id
        (fmtOutput ⟨"DP-1:A", "mk", "md", none⟩) = "DP-1:A") := by decide

/-- C6 (amended): resolving the formatted display line (splitting on the
first colon, parsing the left-hand token) recovers the identifier for every
window and workspace, and for every output whose name contains no colon. -/
theorem C6_roundtrip_amended :
    (∀ w : Window, w.id < 2 ^ 64 →
      parseU64 (fuzzel_get_selection_id (fmtWindow w)) = some w.id) ∧
    (∀ w : Workspace, w.id < 2 ^ 64 →
      parseU64 (fuzzel_get_selection_id (fmtWorkspace w)) = some w.id) ∧
    (∀ o : Output, ':' ∉ o.name.data →
      fuzzel_get_selection_id (fmtOutput o) = o.name) := by
  refine ⟨?_, ?_, fun o h => splitColonFirst_fmtOutput o h⟩
  · intro w h
    unfold fuzzel_get_selection_id
    rw [splitColonFirst_fmtWindow, parse_natRepr h]
  · intro w h
    unfold fuzzel_get_selection_id
    rw [splitColonFirst_fmtWorkspace, parse_natRepr h]

theorem C6_roundtrip_amended_witness :
    parseU64 (fuzzel_get_selection_id (fmtWindow ⟨42, some "Term"⟩)) =
      some 42 ∧
    parseU64 (fuzzel_get_selection_id
      (fmtWorkspace ⟨3, 0, some "mail", true⟩)) = some 3 ∧
    fuzzel_get_selection_id (fmtOutput ⟨"DP-1", "mk", "md", none⟩) = "DP-1" :=
  ⟨C6_roundtrip_amended.1 ⟨42, some "Term"⟩ (by norm_num),
    C6_roundtrip_amended.2.1 ⟨3, 0, some "mail", true⟩ (by norm_num),
    C6_roundtrip_amended.2.2 ⟨"DP-1", "mk", "md", none⟩ (by decide)⟩

/-- C7: with zero workspaces, the current-focused-workspace lookup and the
last-workspace fallback of focus-workspace both fail (the source panics in
`unwrap` / `expect`), never returning a silent default. -/
theorem C7_zero_workspaces_invariant :
    (get_current_workspace (.ok (.ok (.Workspaces []))) =
      .error (.Panic "called Option::unwrap on a None value")) ∧
    (∀ (env : Env) (text : String),
      env .Workspaces = .ok (.ok (.Workspaces [])) →
      ':' ∉ text.data →
      focus_workspace_by_name env (text ++ "\n") =
        ([], .error (.Panic "No workspaces"))) := by
  refine ⟨rfl, ?_⟩
  intro env text henv hcolon
  unfold focus_workspace_by_name
  rw [henv, get_workspaces_eq, resolve_freetext text hcolon]
  rfl

theorem C7_zero_workspaces_invariant_witness :
    focus_workspace_by_name emptyWsEnv ("scratch" ++ "\n") =
      ([], .error (.Panic "No workspaces")) :=
  C7_zero_workspaces_invariant.2 emptyWsEnv "scratch" rfl (by decide)

/-- C8: steal-container issues exactly one action, `MoveWindowToWorkspace`
with the picked window id, the focused workspace id as reference, and
`focus: false`. -/
theorem C8_steal_container (env : Env) (fuzzelOut : String)
    (ws : List Window) (ss : List Workspace) (w : Workspace) (n : Nat)
    (hw : env .Windows = .ok (.ok (.Windows ws)))
    (hs : env .Workspaces = .ok (.ok (.Workspaces ss)))
    (hf : ss.find? (fun x => x.is_focused) = some w)
    (hp : parseU64 (fuzzel_get_selection_id fuzzelOut) = some n) :
    steal_container_by_id env fuzzelOut =
      ([Action.MoveWindowToWorkspace (some n) (.Id w.id) false],
        run_action (env (.Action
          (.MoveWindowToWorkspace (some n) (.Id w.id) false)))) := by
  unfold steal_container_by_id
  rw [hw, hs, get_windows_eq, get_current_workspace_focused ss w hf]
  dsimp only
  rw [hp]

theorem C8_steal_container_witness :
    steal_container_by_id sampleEnv "42: Term\n" =
      ([Action.MoveWindowToWorkspace (some 42) (.Id 7) false], .ok ()) := by
  rw [C8_steal_container sampleEnv "42: Term\n" [⟨42, some "Term"⟩]
    [⟨7, 0, some "mail", true⟩] ⟨7, 0, some "mail", true⟩ 42
    rfl rfl (by decide) (by decide)]
  rfl

/-- C3: in ID-or-new-entry mode, a picked listing line (which contains a
colon) resolves to the numeric id before the colon and issues exactly one
`FocusWorkspace` action with that id; a line with no colon resolves to the
typed free text and issues exactly two actions in order: `FocusWorkspace`
with the id of the last (highest-index) workspace of the sorted listing,
then `SetWorkspaceName` with the typed text and that same id. -/
theorem C3_focus_workspace_resolution :
    (∀ (env : Env) (s : List Workspace) (w : Workspace),
      env .Workspaces = .ok (.ok (.Workspaces s)) →
      w.id < 2 ^ 64 →
      fuzzel_get_selection_id_or_entry (fmtWorkspace w ++ "\n") =
        .ok ⟨some w.id, fmtWorkspace w⟩ ∧
      (focus_workspace_by_name env (fmtWorkspace w ++ "\n")).1 =
        [.FocusWorkspace (.Id w.id)]) ∧
    (∀ (env : Env) (s : List Workspace) (lastW : Workspace) (text : String),
      env .Workspaces = .ok (.ok (.Workspaces s)) →
      (sortWorkspaces s).getLast? = some lastW →
      lastW.id < 2 ^ 64 →
      ':' ∉ text.data →
      env (.Action (.FocusWorkspace (.Id lastW.id))) = .ok (.ok .Handled) →
      fuzzel_get_selection_id_or_entry (text ++ "\n") = .ok ⟨none, text⟩ ∧
      focus_workspace_by_name env (text ++ "\n") =
        ([.FocusWorkspace (.Id lastW.id),
          .SetWorkspaceName text (some (.Id lastW.id))],
          run_action (env (.Action
            (.SetWorkspaceName text (some (.Id lastW.id)))))) ∧
      (∀ x ∈ sortWorkspaces s, x.idx ≤ lastW.idx)) := by
  constructor
  · intro env s w henv hid
    refine ⟨resolve_fmtWorkspace w hid, ?_⟩
    unfold focus_workspace_by_name
    rw [henv, get_workspaces_eq, resolve_fmtWorkspace w hid]
  · intro env s lastW text henv hlast hid hcolon hact
    refine ⟨resolve_freetext text hcolon, ?_,
      pairwise_getLast_max _ (sortWorkspaces_pairwise s) lastW hlast⟩
    unfold focus_workspace_by_name
    rw [henv, get_workspaces_eq, resolve_freetext text hcolon]
    dsimp only
    rw [List.getLast?_map, hlast]
    dsimp only [Option.map]
    rw [splitColonFirst_fmtWorkspace, parse_natRepr hid]
    dsimp only
    rw [hact]
    rfl

theorem C3_focus_workspace_resolution_witness :
    (fuzzel_get_selection_id_or_entry
        (fmtWorkspace ⟨3, 0, some "mail", true⟩ ++ "\n") =
      .ok ⟨some 3, fmtWorkspace ⟨3, 0, some "mail", true⟩⟩ ∧
     (focus_workspace_by_name twoWsEnv
        (fmtWorkspace ⟨3, 0, some "mail", true⟩ ++ "\n")).1 =
      [.FocusWorkspace (.Id 3)]) ∧
    (fuzzel_get_selection_id_or_entry ("scratch" ++ "\n") =
      .ok ⟨none, "scratch"⟩ ∧
     focus_workspace_by_name twoWsEnv ("scratch" ++ "\n") =
       ([.FocusWorkspace (.Id 9),
         .SetWorkspaceName "scratch" (some (.Id 9))],
         run_action (twoWsEnv (.Action
           (.SetWorkspaceName "scratch" (some (.Id 9)))))) ∧
     (∀ x ∈ sortWorkspaces
        [⟨3, 0, some "mail", true⟩, ⟨9, 1, some "web", false⟩],
        x.idx ≤ (⟨9, 1, some "web", false⟩ : Workspace).idx)) :=
  ⟨C3_focus_workspace_resolution.1 twoWsEnv
      [⟨3, 0, some "mail", true⟩, ⟨9, 1, some "web", false⟩]
      ⟨3, 0, some "mail", true⟩ rfl (by norm_num),
    C3_focus_workspace_resolution.2 twoWsEnv
      [⟨3, 0, some "mail", true⟩, ⟨9, 1, some "web", false⟩]
      ⟨9, 1, some "web", false⟩ "scratch" rfl (by decide) (by norm_num)
      (by decide) rfl⟩

/-- C4 counterexample: with a benign environment and empty picker output
(cancellation), `move-workspace-to-output` does not perform a successful
no-op with zero actions: it issues a `MoveWorkspaceToMonitor` action with
an empty output name. -/
theorem C4_counterexample_empty_picker :
    ¬ ((move_workspace_to_output sampleEnv "").1 = [] ∧
      (move_workspace_to_output sampleEnv "").2 = .ok ()) := by decide

/-- C4 (amended): empty picker output is not handled as a cancellation
no-op.  With the listings available, focus-container, steal-container and
move-to-workspace fail with a `u64` parse error having issued zero actions;
focus-workspace panics stripping the trailing newline; and
move-workspace-to-output issues exactly one `MoveWorkspaceToMonitor` action
whose output name is the empty string. -/
theorem C4_empty_picker_amended (env : Env)
    (ws : List Window) (ss : List Workspace) (os : List Output)
    (w : Workspace)
    (hw : env .Windows = .ok (.ok (.Windows ws)))
    (hs : env .Workspaces = .ok (.ok (.Workspaces ss)))
    (ho : env .Outputs = .ok (.ok (.Outputs os)))
    (hf : ss.find? (fun x => x.is_focused) = some w) :
    focus_container_by_id env "" = ([], .error (.ParseIntError "")) ∧
    steal_container_by_id env "" = ([], .error (.ParseIntError "")) ∧
    move_to_workspace_by_name env "" = ([], .error (.ParseIntError "")) ∧
    focus_workspace_by_name env "" =
      ([], .error (.Panic "Failed to strip newline")) ∧
    (move_workspace_to_output env "").1 =
      [.MoveWorkspaceToMonitor "" none] := by
  refine ⟨?_, ?_, ?_, ?_, ?_⟩
  · unfold focus_container_by_id
    rw [hw, get_windows_eq]
    rfl
  · unfold steal_container_by_id
    rw [hw, hs, get_windows_eq, get_current_workspace_focused ss w hf]
    rfl
  · unfold move_to_workspace_by_name
    rw [hs, get_workspaces_eq]
    rfl
  · unfold focus_workspace_by_name
    rw [hs, get_workspaces_eq]
    rfl
  · unfold move_workspace_to_output
    rw [ho, get_outputs_eq]
    rfl

theorem C4_empty_picker_amended_witness :
    focus_container_by_id sampleEnv "" = ([], .error (.ParseIntError "")) ∧
    steal_container_by_id sampleEnv "" = ([], .error (.ParseIntError "")) ∧
    move_to_workspace_by_name sampleEnv "" =
      ([], .error (.ParseIntError "")) ∧
    focus_workspace_by_name sampleEnv "" =
      ([], .error (.Panic "Failed to strip newline")) ∧
    (move_workspace_to_output sampleEnv "").1 =
      [.MoveWorkspaceToMonitor "" none] :=
  C4_empty_picker_amended sampleEnv [⟨42, some "Term"⟩]
    [⟨7, 0, some "mail", true⟩] [⟨"DP-1", "mk", "md", none⟩]
    ⟨7, 0, some "mail", true⟩ rfl rfl rfl (by decide)

theorem C10_query_helpers_silent_defaults_witness :
    get_windows (.ok (.ok .Handled)) = .ok [] ∧
    get_workspaces (.ok (.ok (.Windows []))) = .ok [] ∧
    get_outputs (.ok (.ok .Handled)) = .ok [] ∧
    get_current_workspace (.ok (.ok (.Outputs []))) = .ok 0 ∧
    get_current_workspace_name (.ok (.ok .Handled)) = .ok "" :=
  ⟨C10_query_helpers_silent_defaults.1 .Handled
      (fun _ h => Response.noConfusion h),
    C10_query_helpers_silent_defaults.2.1 (.Windows [])
      (fun _ h => Response.noConfusion h),
    C10_query_helpers_silent_defaults.2.2.1 .Handled
      (fun _ h => Response.noConfusion h),
    C10_query_helpers_silent_defaults.2.2.2.1 (.Outputs [])
      (fun _ h => Response.noConfusion h),
    C10_query_helpers_silent_defaults.2.2.2.2 .Handled
      (fun _ h => Response.noConfusion h)⟩

end NiriAction
